import Mathlib

/-!
Shallow embedding of the media-server backend (TypeScript sources under
`src/src`): the Media table row, the error taxonomy of `src/src/model.ts`,
the response envelope and central error handler of `src/src/middleware.ts`,
the media lifecycle service of `src/src/media/service.ts`, the multer
upload filter of `src/src/media/middleware.ts`, and the routes of
`src/src/media/api.ts`.

Modelling conventions:
- timestamps (`new Date().toISOString()`) are abstract instants `Nat`,
  threaded as an explicit `now` argument; `deletedAt : Option Nat` with
  `none` standing for SQL `NULL`;
- the database table is a `List Media`; drizzle's
  `select/update/delete ... where(eq(Media.id, id))` become list
  filter/map combinators;
- the uploads directory is a `FileStore := List String` of file paths;
  filesystem failures of `fs.unlink` are an oracle parameter;
- client JSON is dynamically typed, so client-supplied numeric fields are
  a `JsValue` and JS truthiness tests are modelled by `JsValue.truthy`;
- image decoding (`image-size`) and multer's generated filename are
  oracle parameters (`decodeDims`, `genName`).
-/

/-- A JavaScript runtime value, as far as the request bodies need:
numbers, strings, booleans and null. Used for client-supplied fields whose
runtime type the service inspects with `typeof` or truthiness. -/
inductive JsValue where
  | num (n : Int)
  | str (s : String)
  | boolV (b : Bool)
  | nullV
deriving DecidableEq, Repr

/-- `typeof v === "number"`. -/
def JsValue.isNumber : JsValue → Bool
  | .num _ => true
  | _ => false

/-- JS truthiness of a value: 0, "", false and null are falsy. -/
def JsValue.truthy : JsValue → Bool
  | .num n => !(n == 0)
  | .str s => !(s == "")
  | .boolV b => b
  | .nullV => false

/-- JS truthiness of a possibly-undefined number (`Option Int`):
`undefined` and 0 are falsy. -/
def optIntTruthy : Option Int → Bool
  | some n => !(n == 0)
  | none => false

/-- JS truthiness of a possibly-undefined string: `undefined` and "" are
falsy. -/
def optStrTruthy : Option String → Bool
  | some s => !(s == "")
  | none => false

/-- JS truthiness of a possibly-undefined `JsValue`. -/
def optJsTruthy : Option JsValue → Bool
  | some v => v.truthy
  | none => false

/-- The `Media` row type of the service (`type Media` in
`src/src/media/service.ts`). -/
structure Media where
  id : Int
  originalFileName : String
  storedFileName : String
  mimeType : String
  width : Int
  height : Int
  fileSize : Int
  createdAt : Nat
  updatedAt : Nat
  deletedAt : Option Nat
deriving DecidableEq, Repr

/-- The media table: a list of rows in insertion order. -/
abbrev DB := List Media

/-- The error taxonomy of `src/src/model.ts`: the three `Error` subclasses
plus `genericError` for a plain `new Error(...)` (any error that is none
of the three subclasses). -/
inductive AppError where
  | notFoundError (message : String)
  | validationError (message : String)
  | unauthorizedError (message : String)
  | genericError (message : String)
deriving DecidableEq, Repr

/-- `err.message`. -/
def AppError.message : AppError → String
  | .notFoundError m => m
  | .validationError m => m
  | .unauthorizedError m => m
  | .genericError m => m

/-- `HttpStatusCode` enum values from `src/src/model.ts`. -/
def HttpStatusCode.OK : Nat := 200

def HttpStatusCode.Created : Nat := 201

def HttpStatusCode.BadRequest : Nat := 400

def HttpStatusCode.Unauthorized : Nat := 401

def HttpStatusCode.Forbidden : Nat := 403

def HttpStatusCode.NotFound : Nat := 404

def HttpStatusCode.InternalServerError : Nat := 500

/-- The response payloads the media routes actually send: `null`, a list
of records, a single record, or a `{ message }` object. -/
inductive Payload where
  | nullP
  | mediaList (ms : List Media)
  | mediaOne (m : Media)
  | messageObj (message : String)
deriving DecidableEq, Repr

/-- The uniform envelope `ApiResponse<T> = { data, code, msg }` of
`src/src/model.ts`. -/
structure ApiResponse where
  data : Payload
  code : Nat
  msg : Option String
deriving DecidableEq, Repr

/-- A complete HTTP response: the status set by `res.status(code)` plus
the JSON body. -/
structure HttpResponse where
  status : Nat
  body : ApiResponse
deriving DecidableEq, Repr

/-- `res.sendApiResponse(data, code, msg)` as installed by
`apiResponseMiddleware` in `src/src/middleware.ts`: builds the envelope
with the given code and sets the same code as HTTP status. -/
def sendApiResponse (data : Payload) (code : Nat) (msg : Option String) : HttpResponse :=
  { status := code, body := { data := data, code := code, msg := msg } }

/-- The central `errorHandler` of `src/src/middleware.ts`: instance tests
in source order (NotFoundError, ValidationError, UnauthorizedError),
default 500 with the raw message. -/
def errorHandler (err : AppError) : HttpResponse :=
  match err with
  | .notFoundError m => sendApiResponse .nullP HttpStatusCode.NotFound (some m)
  | .validationError m => sendApiResponse .nullP HttpStatusCode.BadRequest (some m)
  | .unauthorizedError m => sendApiResponse .nullP HttpStatusCode.Unauthorized (some m)
  | .genericError m => sendApiResponse .nullP HttpStatusCode.InternalServerError (some m)

/-- `notFoundMiddleware` of `src/src/middleware.ts`. -/
def notFoundRoute : HttpResponse :=
  sendApiResponse .nullP HttpStatusCode.NotFound (some "API route not found")

/-- drizzle `db.select().from(Media).where(eq(Media.id, id))`. -/
def dbSelectWhereId (db : DB) (id : Int) : List Media :=
  db.filter (fun r => r.id == id)

/-- `...limit(1)` then array destructuring `[record]`: the first row with
the given id, if any (`findFirstById`). -/
def findFirstById (db : DB) (id : Int) : Option Media :=
  (dbSelectWhereId db id).head?

/-- drizzle `db.update(Media).set(f).where(eq(Media.id, id)).returning()`:
first component is the table after the update, second the list of updated
rows as returned. -/
def dbUpdateWhereId (db : DB) (id : Int) (f : Media → Media) : DB × List Media :=
  (db.map (fun r => if r.id == id then f r else r),
    (db.filter (fun r => r.id == id)).map f)

/-- The uploads directory `./uploads`: the set of file paths currently on
disk, as a list. -/
abbrev FileStore := List String

/-- `path.join('./uploads', name)`. -/
def pathJoinUploads (name : String) : String :=
  "./uploads/" ++ name

/-- Outcome of `fs.unlink`: success, `ENOENT`, or some other I/O error. -/
inductive UnlinkOutcome where
  | okU
  | enoent
  | otherFailure (message : String)
deriving DecidableEq, Repr

/-- `fs.unlink(p)`. `unlinkErr` is an environment oracle: for a present
file, `some m` means the OS reports a non-ENOENT failure with message `m`
(leaving the file in place); a missing file always yields `ENOENT`. -/
def unlink (fsStore : FileStore) (unlinkErr : String → Option String) (p : String) :
    FileStore × UnlinkOutcome :=
  if p ∈ fsStore then
    match unlinkErr p with
    | some m => (fsStore, .otherFailure m)
    | none => (fsStore.erase p, .okU)
  else (fsStore, .enoent)

/-- The `UploadedFile` interface of `src/src/media/service.ts`. -/
structure UploadedFile where
  originalname : String
  filename : String
  mimetype : String
  size : Int
  path : String
deriving DecidableEq, Repr

/-- An incoming multipart file part, before multer processes it: the
client-declared original name, MIME type and size. -/
structure IncomingFile where
  originalname : String
  mimetype : String
  size : Int
deriving DecidableEq, Repr

/-- JS `s.startsWith(pre)`: the first characters of `s` are exactly
`pre`. -/
def strStartsWith (s pre : String) : Bool :=
  s.data.take pre.data.length == pre.data

/-- The `fileFilter` of `src/src/media/middleware.ts`: accepts when the
declared MIME type starts with "image/", otherwise rejects with a plain
`new Error("Only image files are allowed")` (not a `ValidationError`). -/
def fileFilter (file : IncomingFile) : Except AppError Unit :=
  if strStartsWith file.mimetype "image/" then .ok ()
  else .error (.genericError "Only image files are allowed")

/-- multer's `upload.single("file")` with the diskStorage of
`src/src/media/middleware.ts`. `genName` is the generated unique filename
(`{uniqueSuffix}{extension}`). Per multer's contract, when `fileFilter`
rejects, the request fails with that error and the file is not written to
storage; with no file part the middleware passes through with
`req.file` undefined. -/
def uploadSingle (fsStore : FileStore) (file : Option IncomingFile) (genName : String) :
    Except AppError (FileStore × Option UploadedFile) :=
  match file with
  | none => .ok (fsStore, none)
  | some f =>
    match fileFilter f with
    | .error e => .error e
    | .ok _ =>
      .ok (pathJoinUploads genName :: fsStore,
        some { originalname := f.originalname, filename := genName,
               mimetype := f.mimetype, size := f.size,
               path := pathJoinUploads genName })

/-- The PUT request body per the route's documented schema
(`src/src/media/api.ts`), merged with the path id by the handler:
`{ id, ...req.body }`. All fields optional; client-supplied numbers are
dynamically typed `JsValue`s. -/
structure UpdateModel where
  id : Option Int
  originalFileName : Option String
  storedFileName : Option String
  mimeType : Option String
  width : Option JsValue
  height : Option JsValue
  fileSize : Option JsValue
deriving DecidableEq, Repr

/-- `validateUpdate` of `src/src/media/service.ts`: width and height, when
present, must have runtime type number, else a plain `new Error(...)` is
thrown (not a `ValidationError`). -/
def validateUpdate (data : UpdateModel) : Except AppError Unit :=
  if data.width.any (fun v => !v.isNumber) then
    .error (.genericError "Width must be a number")
  else if data.height.any (fun v => !v.isNumber) then
    .error (.genericError "Height must be a number")
  else .ok ()

/-- `validateCreate` of `src/src/media/service.ts`: each required field
must be truthy (`!data.field` throws), with plain `new Error(...)`. -/
def validateCreate (data : UpdateModel) : Except AppError Unit :=
  if !optStrTruthy data.originalFileName then .error (.genericError "Missing originalFileName")
  else if !optStrTruthy data.storedFileName then .error (.genericError "Missing storedFileName")
  else if !optStrTruthy data.mimeType then .error (.genericError "Missing mimeType")
  else if !optJsTruthy data.width then .error (.genericError "Missing width")
  else if !optJsTruthy data.height then .error (.genericError "Missing height")
  else if !optJsTruthy data.fileSize then .error (.genericError "Missing fileSize")
  else .ok ()

/-- The field mutation applied by `update`'s
`db.update(Media).set(updates)`: `updates` is `{ ...model }` with
`delete updates.id`, so every field present in the model except `id`
overwrites the row.
Modelled from the spec: the drizzle table schema (`sqlite/schema.ts`, not
under `src/`) server-sets `updatedAt`; spec 4.2 Update "updates
updatedAt", so the row's `updatedAt` becomes the current time. Non-numeric
runtime values in numeric columns (unreachable past `validateUpdate` for
width/height) keep the old value. -/
def applyUpdates (u : UpdateModel) (now : Nat) (r : Media) : Media :=
  { r with
    originalFileName := u.originalFileName.getD r.originalFileName,
    storedFileName := u.storedFileName.getD r.storedFileName,
    mimeType := u.mimeType.getD r.mimeType,
    width := match u.width with | some (.num n) => n | _ => r.width,
    height := match u.height with | some (.num n) => n | _ => r.height,
    fileSize := match u.fileSize with | some (.num n) => n | _ => r.fileSize,
    updatedAt := now }

/-- `update` of `src/src/media/service.ts`: validate, strip `id` from the
update set, update rows matching `model.id`, throw `NotFoundError` when
`result.length === 0`, else return `result[0]`. -/
def update (db : DB) (model : UpdateModel) (now : Nat) : Except AppError (DB × Media) :=
  match validateUpdate model with
  | .error e => .error e
  | .ok _ =>
    match (dbUpdateWhereId db (model.id.getD 0) (applyUpdates model now)).snd.head? with
    | none => .error (.notFoundError "No record found with the provided id")
    | some r => .ok ((dbUpdateWhereId db (model.id.getD 0) (applyUpdates model now)).fst, r)

/-- `create` of `src/src/media/service.ts`: validate, then
`db.insert(Media).values(dto).returning()`.
Modelled from the spec: the table schema (not under `src/`) auto-assigns
the identifier (`newId` is the id the database picks) and server-sets
`createdAt`/`updatedAt`, with `deletedAt` defaulting to null; explicit
values supplied by `createFromFile` coincide with these. -/
def create (db : DB) (model : UpdateModel) (now : Nat) (newId : Int) :
    Except AppError (DB × Media) :=
  match validateCreate model with
  | .error e => .error e
  | .ok _ =>
    let inserted : Media :=
      { id := newId,
        originalFileName := model.originalFileName.getD "",
        storedFileName := model.storedFileName.getD "",
        mimeType := model.mimeType.getD "",
        width := match model.width with | some (.num n) => n | _ => 0,
        height := match model.height with | some (.num n) => n | _ => 0,
        fileSize := match model.fileSize with | some (.num n) => n | _ => 0,
        createdAt := now, updatedAt := now, deletedAt := none }
    .ok (db ++ [inserted], inserted)

/-- `createOrUpdate` of `src/src/media/service.ts`: `if (model.id)` — JS
truthiness, so an id of 0 (or undefined) dispatches to `create`. -/
def createOrUpdate (db : DB) (model : UpdateModel) (now : Nat) (newId : Int) :
    Except AppError (DB × Media) :=
  if optIntTruthy model.id then update db model now
  else create db model now newId

/-- `softDelete` of `src/src/media/service.ts`: look up the row, throw
`NotFoundError` when absent, `ValidationError` when already soft-deleted,
else set `deletedAt` and `updatedAt` to the current time and return the
first updated row (`[updatedRecord]` destructuring, hence `Option`). -/
def softDelete (db : DB) (id : Int) (now : Nat) :
    Except AppError (DB × Option Media) :=
  match findFirstById db id with
  | none => .error (.notFoundError "Media not found")
  | some currentRecord =>
    if currentRecord.deletedAt ≠ none then
      .error (.validationError "Record is already deleted")
    else
      let upd := dbUpdateWhereId db id
        (fun r => { r with deletedAt := some now, updatedAt := now })
      .ok (upd.fst, upd.snd.head?)

/-- `restore` of `src/src/media/service.ts`: look up the row, throw
`NotFoundError` when absent, `ValidationError` when not soft-deleted, else
clear `deletedAt`, set `updatedAt` to the current time, and return the
first updated row. -/
def restore (db : DB) (id : Int) (now : Nat) :
    Except AppError (DB × Option Media) :=
  match findFirstById db id with
  | none => .error (.notFoundError "Media not found")
  | some currentRecord =>
    if currentRecord.deletedAt = none then
      .error (.validationError "Record is not deleted")
    else
      let upd := dbUpdateWhereId db id
        (fun r => { r with deletedAt := none, updatedAt := now })
      .ok (upd.fst, upd.snd.head?)

/-- The result of `remove`: drizzle's delete result (`rowsAffected`) plus
the table and file store afterwards. -/
structure RemoveResult where
  db : DB
  fsStore : FileStore
  rowsAffected : Nat
deriving DecidableEq, Repr

/-- `remove` of `src/src/media/service.ts` (hard delete): fetch the row
(`NotFoundError` when absent), delete it from the table, then unlink the
backing file; `ENOENT` is ignored and any other unlink failure is logged
(`console.error`, a side effect not modelled) and swallowed, so the
function still returns the delete result. -/
def remove (db : DB) (fsStore : FileStore) (unlinkErr : String → Option String) (id : Int) :
    Except AppError RemoveResult :=
  match findFirstById db id with
  | none => .error (.notFoundError "Media not found")
  | some record =>
    let db2 := db.filter (fun r => !(r.id == id))
    let affected := (db.filter (fun r => r.id == id)).length
    let fs2 := (unlink fsStore unlinkErr (pathJoinUploads record.storedFileName)).fst
    .ok { db := db2, fsStore := fs2, rowsAffected := affected }

/-- `getImageDimensions` of `src/src/media/service.ts`: `decodeDims` is
the `image-size` decoder as an oracle from the stored file's path;
`none` or a falsy (zero) width or height throws the generic dimension
error. -/
def getImageDimensions (decodeDims : String → Option (Int × Int)) (file : UploadedFile) :
    Except AppError (Int × Int) :=
  match decodeDims file.path with
  | none => .error (.genericError "Could not determine image dimensions")
  | some (w, h) =>
    if w == 0 || h == 0 then .error (.genericError "Could not determine image dimensions")
    else .ok (w, h)

/-- `createFromFile` of `src/src/media/service.ts`: no file throws a plain
error; otherwise decode dimensions (re-checking truthiness as the source
does) and insert via `create` with server-set timestamps and
`deletedAt = null`. -/
def createFromFile (db : DB) (decodeDims : String → Option (Int × Int))
    (file : Option UploadedFile) (now : Nat) (newId : Int) :
    Except AppError (DB × Media) :=
  match file with
  | none => .error (.genericError "No file uploaded")
  | some f =>
    match getImageDimensions decodeDims f with
    | .error e => .error e
    | .ok (w, h) =>
      if w == 0 || h == 0 then .error (.genericError "Could not determine image dimensions")
      else
        create db
          { id := none,
            originalFileName := some f.originalname,
            storedFileName := some f.filename,
            mimeType := some f.mimetype,
            width := some (.num w), height := some (.num h),
            fileSize := some (.num f.size) } now newId

/-- `parseInt(s, 10)` as the routes use it on a path segment: optional
sign, then the longest leading run of ASCII digits; no digit means `NaN`
(`none`). Leading-whitespace trimming is not modelled (a path segment
carries none). -/
def parseIntDec (s : String) : Option Int :=
  let split : Int × List Char :=
    match s.data with
    | '-' :: t => (-1, t)
    | '+' :: t => (1, t)
    | cs => (1, cs)
  let ds := split.snd.takeWhile (fun c => c.isDigit)
  if ds.isEmpty then none
  else some (split.fst * (ds.foldl (fun a c => a * 10 + (c.toNat - '0'.toNat)) 0 : Nat))

/-- The process-wide mutable state the routes touch: the table and the
uploads directory. -/
structure ServerState where
  db : DB
  fsStore : FileStore
deriving DecidableEq, Repr

/-- A route handler's `try { ... } catch (err) { next(err) }`: a thrown
error is forwarded to the central `errorHandler` and leaves the state as
it was. -/
def runRouteSt (st : ServerState) (r : Except AppError (HttpResponse × ServerState)) :
    HttpResponse × ServerState :=
  match r with
  | .ok x => x
  | .error e => (errorHandler e, st)

/-- `GET /media` (`src/src/media/api.ts`): `getAll` (a bare
`db.select()`, soft-deleted included) sent with 200 and no msg. -/
def getAllRoute (st : ServerState) : HttpResponse × ServerState :=
  runRouteSt st (.ok (sendApiResponse (.mediaList st.db) HttpStatusCode.OK none, st))

/-- `PUT /media/:id`: parse the id (`ValidationError "Invalid ID"` on
NaN), merge it into the body, `createOrUpdate`, answer 200 with
`{ message: "Media updated" }`. (The handler's `if (!result)` test is dead:
the service returns a row object or throws.) -/
def putRoute (st : ServerState) (idStr : String) (body : UpdateModel)
    (now : Nat) (newId : Int) : HttpResponse × ServerState :=
  runRouteSt st (
    match parseIntDec idStr with
    | none => .error (.validationError "Invalid ID")
    | some id =>
      match createOrUpdate st.db { body with id := some id } now newId with
      | .error e => .error e
      | .ok (db2, _) =>
        .ok (sendApiResponse (.messageObj "Media updated") HttpStatusCode.OK none,
          { st with db := db2 }))

/-- `DELETE /media/:id`: parse the id, `remove`, throw `NotFoundError`
when `rowsAffected === 0`, answer 200 "Media deleted". -/
def deleteRoute (st : ServerState) (unlinkErr : String → Option String)
    (idStr : String) : HttpResponse × ServerState :=
  runRouteSt st (
    match parseIntDec idStr with
    | none => .error (.validationError "Invalid ID")
    | some id =>
      match remove st.db st.fsStore unlinkErr id with
      | .error e => .error e
      | .ok res =>
        if res.rowsAffected == 0 then .error (.notFoundError "Media not found")
        else .ok (sendApiResponse .nullP HttpStatusCode.OK (some "Media deleted"),
          { db := res.db, fsStore := res.fsStore }))

/-- `PATCH /media/:id/soft-delete`: parse the id, `softDelete`, throw
`NotFoundError` on a falsy result, answer 200 "Media soft-deleted". -/
def softDeleteRoute (st : ServerState) (idStr : String) (now : Nat) :
    HttpResponse × ServerState :=
  runRouteSt st (
    match parseIntDec idStr with
    | none => .error (.validationError "Invalid ID")
    | some id =>
      match softDelete st.db id now with
      | .error e => .error e
      | .ok (db2, result) =>
        match result with
        | none => .error (.notFoundError "Media not found")
        | some _ =>
          .ok (sendApiResponse .nullP HttpStatusCode.OK (some "Media soft-deleted"),
            { st with db := db2 }))

/-- `PATCH /media/:id/restore`: parse the id, `restore`, throw
`NotFoundError` on a falsy result, answer 200 "Media restored". -/
def restoreRoute (st : ServerState) (idStr : String) (now : Nat) :
    HttpResponse × ServerState :=
  runRouteSt st (
    match parseIntDec idStr with
    | none => .error (.validationError "Invalid ID")
    | some id =>
      match restore st.db id now with
      | .error e => .error e
      | .ok (db2, result) =>
        match result with
        | none => .error (.notFoundError "Media not found")
        | some _ =>
          .ok (sendApiResponse .nullP HttpStatusCode.OK (some "Media restored"),
            { st with db := db2 }))

/-- `POST /media`: the multer middleware runs first (rejection goes to the
central error handler with the state untouched); then the handler throws
`ValidationError` when no file part was sent, else `createFromFile` and a
201 "Media stored" with the new record. -/
def postPipeline (st : ServerState) (decodeDims : String → Option (Int × Int))
    (file : Option IncomingFile) (genName : String) (now : Nat) (newId : Int) :
    HttpResponse × ServerState :=
  match uploadSingle st.fsStore file genName with
  | .error e => (errorHandler e, st)
  | .ok (fs2, reqFile) =>
    let st2 : ServerState := { st with fsStore := fs2 }
    runRouteSt st2 (
      match reqFile with
      | none => .error (.validationError "No file uploaded")
      | some f =>
        match createFromFile st2.db decodeDims (some f) now newId with
        | .error e => .error e
        | .ok (db2, media) =>
          .ok (sendApiResponse (.mediaOne media) HttpStatusCode.Created (some "Media stored"),
            { st2 with db := db2 }))

/-- A concrete active record used as a test fixture. -/
def sampleMedia : Media :=
  { id := 1, originalFileName := "a.png", storedFileName := "s.png",
    mimeType := "image/png", width := 100, height := 50, fileSize := 10,
    createdAt := 0, updatedAt := 0, deletedAt := none }

/-- A concrete soft-deleted record used as a test fixture. -/
def sampleDeleted : Media :=
  { sampleMedia with id := 2, storedFileName := "t.png", deletedAt := some 3 }

/-- A concrete server state with one active record and its file. -/
def sampleSt : ServerState :=
  { db := [sampleMedia], fsStore := [pathJoinUploads "s.png"] }

/-- A request body with every field absent. -/
def emptyUpdate : UpdateModel :=
  { id := none, originalFileName := none, storedFileName := none, mimeType := none,
    width := none, height := none, fileSize := none }

/-- The returned rows of a `where id` update are the updated matching
rows: their head is the first match, updated. -/
theorem dbUpdateWhereId_snd_head (db : DB) (id : Int) (f : Media → Media) :
    (dbUpdateWhereId db id f).snd.head? = (findFirstById db id).map f := by
  simp [dbUpdateWhereId, findFirstById, dbSelectWhereId]

/-- A row of the table after a `where id` update either is the update of a
matching row of the old table or is an unchanged non-matching row. -/
theorem mem_dbUpdateWhereId_fst (db : DB) (id : Int) (f : Media → Media) (r2 : Media)
    (h : r2 ∈ (dbUpdateWhereId db id f).fst) :
    (∃ r0, r0 ∈ db ∧ r0.id = id ∧ r2 = f r0) ∨ (r2 ∈ db ∧ r2.id ≠ id) := by
  simp only [dbUpdateWhereId, List.mem_map] at h
  obtain ⟨r0, hr0, hite⟩ := h
  by_cases hc : r0.id = id
  · left
    exact ⟨r0, hr0, hc, by simpa [hc] using hite.symm⟩
  · right
    have : r2 = r0 := by simpa [hc] using hite.symm
    exact ⟨this ▸ hr0, by simpa [this] using hc⟩

/-- A `where id` update by an id-preserving mutation leaves the sequence
of row ids unchanged. -/
theorem dbUpdateWhereId_fst_ids (db : DB) (id : Int) (f : Media → Media)
    (hf : ∀ r, (f r).id = r.id) :
    (dbUpdateWhereId db id f).fst.map (fun r => r.id) = db.map (fun r => r.id) := by
  simp only [dbUpdateWhereId, List.map_map]
  refine List.map_congr_left ?_
  intro r _
  by_cases hc : r.id = id <;> simp [Function.comp, hc, hf]

/-- Looking up an id after a `where id` update by an id-preserving
mutation finds the update of the old first match. -/
theorem findFirstById_dbUpdateWhereId (db : DB) (id : Int) (f : Media → Media)
    (hf : ∀ r, (f r).id = r.id) :
    findFirstById (dbUpdateWhereId db id f).fst id = (findFirstById db id).map f := by
  induction db with
  | nil => rfl
  | cons r t ih =>
    by_cases hc : r.id = id
    · simp [findFirstById, dbSelectWhereId, dbUpdateWhereId, hc, hf]
    · simpa [findFirstById, dbSelectWhereId, dbUpdateWhereId, hc, hf] using ih

/-- C1: for every id, SoftDelete(id) fails with NotFoundError when no
record with that id exists; fails with ValidationError when the record's
deletedAt is already non-null; and otherwise sets both deletedAt and
updatedAt of that record to the current time. -/
theorem C1_softDelete_spec (db : DB) (id : Int) (now : Nat) :
    (findFirstById db id = none →
      softDelete db id now = .error (.notFoundError "Media not found")) ∧
    (∀ r, findFirstById db id = some r → r.deletedAt ≠ none →
      softDelete db id now = .error (.validationError "Record is already deleted")) ∧
    (∀ r, findFirstById db id = some r → r.deletedAt = none →
      ∃ db2, softDelete db id now =
          .ok (db2, some { r with deletedAt := some now, updatedAt := now }) ∧
        ∀ r2, r2 ∈ db2 → r2.id = id → r2.deletedAt = some now ∧ r2.updatedAt = now) := by
  refine ⟨?_, ?_, ?_⟩
  · intro h
    simp [softDelete, h]
  · intro r hr hd
    simp [softDelete, hr, hd]
  · intro r hr hd
    refine ⟨(dbUpdateWhereId db id
      (fun r => { r with deletedAt := some now, updatedAt := now })).fst, ?_, ?_⟩
    · simp [softDelete, hr, hd, dbUpdateWhereId_snd_head]
    · intro r2 h2 hid
      rcases mem_dbUpdateWhereId_fst db id _ r2 h2 with ⟨r0, _, _, hrw⟩ | ⟨_, hne⟩
      · subst hrw
        exact ⟨rfl, rfl⟩
      · exact absurd hid hne

/-- Witness for C1: soft-deleting the sample active record at time 5
marks it deleted at 5. -/
theorem C1_softDelete_spec_witness :
    ∃ db2, softDelete [sampleMedia] 1 5 =
        .ok (db2, some { sampleMedia with deletedAt := some 5, updatedAt := 5 }) ∧
      ∀ r2, r2 ∈ db2 → r2.id = 1 → r2.deletedAt = some 5 ∧ r2.updatedAt = 5 :=
  (C1_softDelete_spec [sampleMedia] 1 5).2.2 sampleMedia rfl rfl

/-- C2: for every id, Restore(id) fails with NotFoundError when no record
with that id exists; fails with ValidationError when the record's
deletedAt is already null; and otherwise sets deletedAt to null and
updatedAt to the current time. -/
theorem C2_restore_spec (db : DB) (id : Int) (now : Nat) :
    (findFirstById db id = none →
      restore db id now = .error (.notFoundError "Media not found")) ∧
    (∀ r, findFirstById db id = some r → r.deletedAt = none →
      restore db id now = .error (.validationError "Record is not deleted")) ∧
    (∀ r, findFirstById db id = some r → r.deletedAt ≠ none →
      ∃ db2, restore db id now =
          .ok (db2, some { r with deletedAt := none, updatedAt := now }) ∧
        ∀ r2, r2 ∈ db2 → r2.id = id → r2.deletedAt = none ∧ r2.updatedAt = now) := by
  refine ⟨?_, ?_, ?_⟩
  · intro h
    simp [restore, h]
  · intro r hr hd
    simp [restore, hr, hd]
  · intro r hr hd
    refine ⟨(dbUpdateWhereId db id
      (fun r => { r with deletedAt := none, updatedAt := now })).fst, ?_, ?_⟩
    · simp [restore, hr, hd, dbUpdateWhereId_snd_head]
    · intro r2 h2 hid
      rcases mem_dbUpdateWhereId_fst db id _ r2 h2 with ⟨r0, _, _, hrw⟩ | ⟨_, hne⟩
      · subst hrw
        exact ⟨rfl, rfl⟩
      · exact absurd hid hne

/-- Witness for C2: restoring the sample soft-deleted record at time 7
clears deletedAt. -/
theorem C2_restore_spec_witness :
    ∃ db2, restore [sampleDeleted] 2 7 =
        .ok (db2, some { sampleDeleted with deletedAt := none, updatedAt := 7 }) ∧
      ∀ r2, r2 ∈ db2 → r2.id = 2 → r2.deletedAt = none ∧ r2.updatedAt = 7 :=
  (C2_restore_spec [sampleDeleted] 2 7).2.2 sampleDeleted rfl (by simp [sampleDeleted])

/-- C3: for every record whose deletedAt is null, SoftDelete(id) followed
by Restore(id) yields a record with deletedAt = null in which every field
other than updatedAt and deletedAt is unchanged. -/
theorem C3_softDelete_restore_roundtrip (db : DB) (id : Int) (now1 now2 : Nat) (r : Media)
    (hfind : findFirstById db id = some r) (hactive : r.deletedAt = none) :
    ∃ db2 db3 r2,
      softDelete db id now1 =
        .ok (db2, some { r with deletedAt := some now1, updatedAt := now1 }) ∧
      restore db2 id now2 = .ok (db3, some r2) ∧
      r2.deletedAt = none ∧
      r2.id = r.id ∧ r2.originalFileName = r.originalFileName ∧
      r2.storedFileName = r.storedFileName ∧ r2.mimeType = r.mimeType ∧
      r2.width = r.width ∧ r2.height = r.height ∧ r2.fileSize = r.fileSize ∧
      r2.createdAt = r.createdAt := by
  have hfind2 : findFirstById
      (dbUpdateWhereId db id
        (fun x => { x with deletedAt := some now1, updatedAt := now1 })).fst id =
      some { r with deletedAt := some now1, updatedAt := now1 } := by
    have hcomm := findFirstById_dbUpdateWhereId db id
      (fun x => { x with deletedAt := some now1, updatedAt := now1 }) (fun x => rfl)
    rw [hcomm, hfind]
    rfl
  refine ⟨(dbUpdateWhereId db id
      (fun x => { x with deletedAt := some now1, updatedAt := now1 })).fst,
    (dbUpdateWhereId
      (dbUpdateWhereId db id
        (fun x => { x with deletedAt := some now1, updatedAt := now1 })).fst id
      (fun x => { x with deletedAt := none, updatedAt := now2 })).fst,
    { r with deletedAt := none, updatedAt := now2 }, ?_, ?_, rfl, rfl, rfl, rfl, rfl,
    rfl, rfl, rfl, rfl⟩
  · simp [softDelete, hfind, hactive, dbUpdateWhereId_snd_head]
  · simp [restore, hfind2, dbUpdateWhereId_snd_head]

/-- The first row found under an id filter carries that id. -/
theorem findFirstById_id (db : DB) (id : Int) (r : Media)
    (h : findFirstById db id = some r) : r.id = id := by
  induction db with
  | nil => simp [findFirstById, dbSelectWhereId] at h
  | cons a t ih =>
    by_cases hc : a.id = id
    · have : a = r := by simpa [findFirstById, dbSelectWhereId, hc] using h
      rw [← this]
      exact hc
    · exact ih (by simpa [findFirstById, dbSelectWhereId, hc] using h)

/-- Every error produced by `validateCreate` is a plain Error. -/
theorem validateCreate_error_generic (m : UpdateModel) (e : AppError)
    (h : validateCreate m = .error e) : ∃ s, e = .genericError s := by
  unfold validateCreate at h
  repeat' split at h
  all_goals simp_all
  all_goals exact ⟨_, h.symm⟩

/-- Witness for C3: the round trip on the sample record at times 5 then 7
returns it active with all non-timestamp fields intact. -/
theorem C3_softDelete_restore_roundtrip_witness :
    ∃ db2 db3 r2,
      softDelete [sampleMedia] 1 5 =
        .ok (db2, some { sampleMedia with deletedAt := some 5, updatedAt := 5 }) ∧
      restore db2 1 7 = .ok (db3, some r2) ∧
      r2.deletedAt = none ∧
      r2.id = sampleMedia.id ∧ r2.originalFileName = sampleMedia.originalFileName ∧
      r2.storedFileName = sampleMedia.storedFileName ∧ r2.mimeType = sampleMedia.mimeType ∧
      r2.width = sampleMedia.width ∧ r2.height = sampleMedia.height ∧
      r2.fileSize = sampleMedia.fileSize ∧ r2.createdAt = sampleMedia.createdAt :=
  C3_softDelete_restore_roundtrip [sampleMedia] 1 5 7 sampleMedia rfl rfl

/-- C4 counterexample: a PUT with a string-valued width on an existing
record answers HTTP 500, not 400 — `validateUpdate` throws a plain
`Error`, not a `ValidationError`, so the central mapper's default branch
fires. -/
theorem C4_update_wrong_type_counterexample :
    (putRoute sampleSt "1" { emptyUpdate with width := some (.str "wide") } 5 99).fst.status
        = 500 ∧
    ¬ (putRoute sampleSt "1" { emptyUpdate with width := some (.str "wide") } 5 99).fst.status
        = 400 := by
  constructor <;> decide

/-- C4 (amended): an Update whose width or height holds a non-numeric
value fails with a plain Error (not ValidationError), which the central
error mapper maps to HTTP 500 with the raw message. -/
theorem C4_update_wrong_type_maps_500 (db : DB) (m : UpdateModel) (now : Nat)
    (h : m.width.any (fun v => !v.isNumber) = true ∨
      m.height.any (fun v => !v.isNumber) = true) :
    ∃ msg, update db m now = .error (.genericError msg) ∧
      errorHandler (.genericError msg) =
        { status := 500, body := { data := .nullP, code := 500, msg := some msg } } := by
  by_cases hw : m.width.any (fun v => !v.isNumber) = true
  · exact ⟨"Width must be a number", by simp [update, validateUpdate, hw], rfl⟩
  · have hh : m.height.any (fun v => !v.isNumber) = true := by
      rcases h with h | h
      · exact absurd h hw
      · exact h
    exact ⟨"Height must be a number", by simp [update, validateUpdate, hw, hh], rfl⟩

/-- Witness for C4 (amended): a string width on the sample record yields
the 500-mapped plain error. -/
theorem C4_update_wrong_type_maps_500_witness :
    ∃ msg, update [sampleMedia] { emptyUpdate with id := some 1, width := some (.str "wide") } 5
        = .error (.genericError msg) ∧
      errorHandler (.genericError msg) =
        { status := 500, body := { data := .nullP, code := 500, msg := some msg } } :=
  C4_update_wrong_type_maps_500 [sampleMedia]
    { emptyUpdate with id := some 1, width := some (.str "wide") } 5 (Or.inl rfl)

/-- C5: for every Update call, when no row matches the given id (and the
fields validate) the call fails with NotFoundError; when it succeeds, the
id of every row is unchanged (the identifier was stripped from the update
set), the returned record keeps the given id, and its updatedAt is the
current time. -/
theorem C5_update_spec (db : DB) (m : UpdateModel) (now : Nat) :
    (validateUpdate m = .ok () → findFirstById db (m.id.getD 0) = none →
      update db m now = .error (.notFoundError "No record found with the provided id")) ∧
    (∀ db2 r, update db m now = .ok (db2, r) →
      db2.map (fun x => x.id) = db.map (fun x => x.id) ∧
      r.id = m.id.getD 0 ∧ r.updatedAt = now) := by
  constructor
  · intro hv hf
    simp [update, hv, dbUpdateWhereId_snd_head, hf]
  · intro db2 r h
    cases hv : validateUpdate m with
    | error e => simp [update, hv] at h
    | ok u =>
      rw [update] at h
      simp only [hv, dbUpdateWhereId_snd_head] at h
      cases hf : findFirstById db (m.id.getD 0) with
      | none => rw [hf] at h; simp at h
      | some r0 =>
        rw [hf] at h
        simp only [Option.map_some', Except.ok.injEq, Prod.mk.injEq] at h
        obtain ⟨hdb2, hr⟩ := h
        subst hdb2
        subst hr
        refine ⟨dbUpdateWhereId_fst_ids db _ _ (fun x => rfl), ?_, rfl⟩
    /- the returned row is the first match mutated; mutation keeps the id -/
        exact findFirstById_id db _ r0 hf
/-- Witness for C5: a MIME-type-only update of the sample record keeps the
row id and stamps updatedAt. -/
theorem C5_update_spec_witness :
    ([{ sampleMedia with mimeType := "image/jpeg", updatedAt := 9 }] : DB).map (fun x => x.id)
        = ([sampleMedia] : DB).map (fun x => x.id) ∧
      ({ sampleMedia with mimeType := "image/jpeg", updatedAt := 9 } : Media).id
        = (some (1 : Int)).getD 0 ∧
      ({ sampleMedia with mimeType := "image/jpeg", updatedAt := 9 } : Media).updatedAt = 9 :=
  (C5_update_spec [sampleMedia]
      { emptyUpdate with id := some 1, mimeType := some "image/jpeg" } 9).2
    [{ sampleMedia with mimeType := "image/jpeg", updatedAt := 9 }]
    { sampleMedia with mimeType := "image/jpeg", updatedAt := 9 } rfl

/-- C6 counterexample: uploading a text/plain file answers HTTP 500, not a
400-mapped ValidationError — the multer fileFilter rejects with a plain
`Error`, so the central mapper's default branch fires. The store is
unchanged (no file written), but the status contradicts the claim. -/
theorem C6_upload_non_image_counterexample :
    (postPipeline sampleSt (fun _ => none)
        (some { originalname := "a.txt", mimetype := "text/plain", size := 3 })
        "g.txt" 5 99).fst.status = 500 ∧
    ¬ (postPipeline sampleSt (fun _ => none)
        (some { originalname := "a.txt", mimetype := "text/plain", size := 3 })
        "g.txt" 5 99).fst.status = 400 ∧
    (postPipeline sampleSt (fun _ => none)
        (some { originalname := "a.txt", mimetype := "text/plain", size := 3 })
        "g.txt" 5 99).snd = sampleSt := by
  refine ⟨?_, ?_, ?_⟩ <;> decide

/-- C6 (amended): an upload whose declared MIME type does not begin with
"image/" fails with the plain Error "Only image files are allowed", which
the central error mapper maps to HTTP 500 (not 400), and no file is
written to the file store (the whole state is untouched). -/
theorem C6_upload_non_image_spec (st : ServerState)
    (decodeDims : String → Option (Int × Int)) (f : IncomingFile) (gen : String)
    (now : Nat) (newId : Int) (h : strStartsWith f.mimetype "image/" = false) :
    uploadSingle st.fsStore (some f) gen
        = .error (.genericError "Only image files are allowed") ∧
    postPipeline st decodeDims (some f) gen now newId
        = (errorHandler (.genericError "Only image files are allowed"), st) ∧
    (postPipeline st decodeDims (some f) gen now newId).fst.status = 500 ∧
    (postPipeline st decodeDims (some f) gen now newId).snd.fsStore = st.fsStore := by
  have h1 : uploadSingle st.fsStore (some f) gen
      = .error (.genericError "Only image files are allowed") := by
    simp [uploadSingle, fileFilter, h]
  have h2 : postPipeline st decodeDims (some f) gen now newId
      = (errorHandler (.genericError "Only image files are allowed"), st) := by
    rw [postPipeline]
    simp [h1]
  exact ⟨h1, h2, by rw [h2]; rfl, by rw [h2]⟩

/-- Witness for C6 (amended): the text/plain upload is rejected with the
500-mapped plain error and the state survives untouched. -/
theorem C6_upload_non_image_spec_witness :
    uploadSingle sampleSt.fsStore
        (some { originalname := "a.txt", mimetype := "text/plain", size := 3 }) "h.txt"
        = .error (.genericError "Only image files are allowed") ∧
    postPipeline sampleSt (fun _ => none)
        (some { originalname := "a.txt", mimetype := "text/plain", size := 3 }) "h.txt" 6 42
        = (errorHandler (.genericError "Only image files are allowed"), sampleSt) ∧
    (postPipeline sampleSt (fun _ => none)
        (some { originalname := "a.txt", mimetype := "text/plain", size := 3 })
        "h.txt" 6 42).fst.status = 500 ∧
    (postPipeline sampleSt (fun _ => none)
        (some { originalname := "a.txt", mimetype := "text/plain", size := 3 })
        "h.txt" 6 42).snd.fsStore = sampleSt.fsStore :=
  C6_upload_non_image_spec sampleSt (fun _ => none)
    { originalname := "a.txt", mimetype := "text/plain", size := 3 } "h.txt" 6 42 rfl

/-- C7: the central error handler maps ValidationError to 400,
UnauthorizedError to 401, NotFoundError to 404, and every other error to
500 with the raw message exposed; every case answers with data null and
the error message as msg. -/
theorem C7_errorHandler_spec (m : String) :
    errorHandler (.validationError m)
        = { status := 400, body := { data := .nullP, code := 400, msg := some m } } ∧
    errorHandler (.unauthorizedError m)
        = { status := 401, body := { data := .nullP, code := 401, msg := some m } } ∧
    errorHandler (.notFoundError m)
        = { status := 404, body := { data := .nullP, code := 404, msg := some m } } ∧
    errorHandler (.genericError m)
        = { status := 500, body := { data := .nullP, code := 500, msg := some m } } ∧
    ∀ e : AppError, (errorHandler e).body.data = .nullP ∧
      (errorHandler e).body.msg = some e.message :=
  ⟨rfl, rfl, rfl, rfl, fun e => by cases e <;> exact ⟨rfl, rfl⟩⟩

/-- In every branch of the central handler the envelope repeats the
status. -/
theorem errorHandler_code_eq (e : AppError) :
    (errorHandler e).body.code = (errorHandler e).status := by
  cases e <;> rfl

/-- A handler wrapped in try/catch answers with the envelope repeating the
status as soon as its success response does. -/
theorem runRouteSt_envelope (st : ServerState)
    (r : Except AppError (HttpResponse × ServerState))
    (h : ∀ x, r = .ok x → x.fst.body.code = x.fst.status) :
    (runRouteSt st r).fst.body.code = (runRouteSt st r).fst.status := by
  cases r with
  | error e => exact errorHandler_code_eq e
  | ok x => exact h x rfl

/-- C8: every HTTP response produced by the routing layer — each media
route on any input, success or error, and the fallback route — carries the
envelope { data, code, msg } with the body's code equal to the response's
HTTP status. -/
theorem C8_envelope_code_matches_status :
    (∀ st, (getAllRoute st).fst.body.code = (getAllRoute st).fst.status) ∧
    (∀ st idStr body now newId,
      (putRoute st idStr body now newId).fst.body.code
        = (putRoute st idStr body now newId).fst.status) ∧
    (∀ st ue idStr,
      (deleteRoute st ue idStr).fst.body.code = (deleteRoute st ue idStr).fst.status) ∧
    (∀ st idStr now,
      (softDeleteRoute st idStr now).fst.body.code
        = (softDeleteRoute st idStr now).fst.status) ∧
    (∀ st idStr now,
      (restoreRoute st idStr now).fst.body.code
        = (restoreRoute st idStr now).fst.status) ∧
    (∀ st decodeDims file gen now newId,
      (postPipeline st decodeDims file gen now newId).fst.body.code
        = (postPipeline st decodeDims file gen now newId).fst.status) ∧
    notFoundRoute.body.code = notFoundRoute.status := by
  refine ⟨fun st => rfl, ?_, ?_, ?_, ?_, ?_, rfl⟩
  · intro st idStr body now newId
    refine runRouteSt_envelope st _ ?_
    intro x hx
    repeat' split at hx
    all_goals simp_all
    all_goals (rw [← hx]; rfl)
  · intro st ue idStr
    refine runRouteSt_envelope st _ ?_
    intro x hx
    repeat' split at hx
    all_goals simp_all
    all_goals (rw [← hx]; rfl)
  · intro st idStr now
    refine runRouteSt_envelope st _ ?_
    intro x hx
    repeat' split at hx
    all_goals simp_all
    all_goals (rw [← hx]; rfl)
  · intro st idStr now
    refine runRouteSt_envelope st _ ?_
    intro x hx
    repeat' split at hx
    all_goals simp_all
    all_goals (rw [← hx]; rfl)
  · intro st decodeDims file gen now newId
    rw [postPipeline]
    split
    · exact errorHandler_code_eq _
    · refine runRouteSt_envelope _ _ ?_
      intro x hx
      repeat' split at hx
      all_goals simp_all
      all_goals (rw [← hx]; rfl)

/-- C9: hard delete Remove(id) fails with NotFoundError when no record
with that id exists, leaving the route's state unchanged; otherwise the
operation succeeds whatever the file
system does: every row with that id is deleted, a missing backing file is
treated as success, any other unlink failure is swallowed (the store is
simply left as it was), and the DELETE route answers 200 "Media deleted"
once the row is gone. -/
theorem C9_remove_spec (db : DB) (fsStore : FileStore)
    (ue : String → Option String) (id : Int) :
    (findFirstById db id = none →
      remove db fsStore ue id = .error (.notFoundError "Media not found") ∧
      ∀ idStr, parseIntDec idStr = some id →
        (deleteRoute { db := db, fsStore := fsStore } ue idStr).snd
          = { db := db, fsStore := fsStore }) ∧
    (∀ r, findFirstById db id = some r →
      ∃ res, remove db fsStore ue id = .ok res ∧
        (∀ r2, r2 ∈ res.db → r2.id ≠ id) ∧
        0 < res.rowsAffected ∧
        (pathJoinUploads r.storedFileName ∉ fsStore → res.fsStore = fsStore) ∧
        (∀ msg, pathJoinUploads r.storedFileName ∈ fsStore →
          ue (pathJoinUploads r.storedFileName) = some msg → res.fsStore = fsStore) ∧
        (∀ idStr, parseIntDec idStr = some id →
          (deleteRoute { db := db, fsStore := fsStore } ue idStr).fst
            = sendApiResponse .nullP 200 (some "Media deleted"))) := by
  constructor
  · intro h
    refine ⟨by simp [remove, h], ?_⟩
    intro idStr hparse
    simp [deleteRoute, hparse, remove, h, runRouteSt]
  · intro r hr
    have hlen : 0 < (db.filter (fun x => x.id == id)).length := by
      cases hl : db.filter (fun x => x.id == id) with
      | nil =>
        rw [findFirstById, dbSelectWhereId, hl] at hr
        simp at hr
      | cons a t => simp [hl]
    refine ⟨RemoveResult.mk (db.filter (fun x => !(x.id == id)))
        ((unlink fsStore ue (pathJoinUploads r.storedFileName)).fst)
        ((db.filter (fun x => x.id == id)).length),
      by simp [remove, hr], ?_, hlen, ?_, ?_, ?_⟩
    · intro r2 h2
      simp only [List.mem_filter, Bool.not_eq_eq_eq_not, Bool.not_true, beq_eq_false_iff_ne,
        ne_eq] at h2
      exact h2.2
    · intro hmem
      simp [unlink, hmem]
    · intro msg hmem hue
      simp [unlink, hmem, hue]
    · intro idStr hparse
      have hne : ¬ (db.filter (fun x => x.id == id)).length = 0 :=
        Nat.pos_iff_ne_zero.mp hlen
      simp [deleteRoute, hparse, remove, hr, runRouteSt, hne, HttpStatusCode.OK]

/-- Witness for C9: removing the sample record with a failing unlink
oracle still succeeds, deletes the row, leaves the store as it was, and
the route answers 200. -/
theorem C9_remove_spec_witness :
    ∃ res, remove [sampleMedia] [pathJoinUploads "s.png"]
        (fun _ => some "EACCES") 1 = .ok res ∧
      (∀ r2, r2 ∈ res.db → r2.id ≠ 1) ∧
      0 < res.rowsAffected ∧
      (pathJoinUploads sampleMedia.storedFileName ∉ [pathJoinUploads "s.png"] →
        res.fsStore = [pathJoinUploads "s.png"]) ∧
      (∀ msg, pathJoinUploads sampleMedia.storedFileName ∈ [pathJoinUploads "s.png"] →
        (fun _ => some "EACCES") (pathJoinUploads sampleMedia.storedFileName) = some msg →
        res.fsStore = [pathJoinUploads "s.png"]) ∧
      (∀ idStr, parseIntDec idStr = some 1 →
        (deleteRoute { db := [sampleMedia], fsStore := [pathJoinUploads "s.png"] }
            (fun _ => some "EACCES") idStr).fst
          = sendApiResponse .nullP 200 (some "Media deleted")) :=
  (C9_remove_spec [sampleMedia] [pathJoinUploads "s.png"]
    (fun _ => some "EACCES") 1).2 sampleMedia rfl

/-- C10: an id equal to 0 — present but numerically zero, exactly what
`parseInt` produces for PUT /media/0 — is falsy, so createOrUpdate
dispatches to create rather than update; in particular it can never fail
with update's NotFoundError, only with create's plain missing-field
errors. -/
theorem C10_createOrUpdate_id_zero_creates (db : DB) (m : UpdateModel)
    (now : Nat) (newId : Int) (h : m.id = some 0) :
    parseIntDec "0" = some 0 ∧
    createOrUpdate db m now newId = create db m now newId ∧
    (∀ e, createOrUpdate db m now newId = .error e → ∃ s, e = .genericError s) := by
  have hbranch : createOrUpdate db m now newId = create db m now newId := by
    simp [createOrUpdate, optIntTruthy, h]
  refine ⟨rfl, hbranch, ?_⟩
  intro e he
  rw [hbranch] at he
  cases hv : validateCreate m with
  | error e0 =>
    rw [create, hv] at he
    cases he
    exact validateCreate_error_generic m e hv
  | ok u =>
    rw [create, hv] at he
    simp at he

/-- Witness for C10: a PUT /media/0 body with id 0 goes down the create
branch and any failure it produces is a plain error. -/
theorem C10_createOrUpdate_id_zero_creates_witness :
    parseIntDec "0" = some 0 ∧
    createOrUpdate [sampleMedia] { emptyUpdate with id := some 0 } 5 42
      = create [sampleMedia] { emptyUpdate with id := some 0 } 5 42 ∧
    (∀ e, createOrUpdate [sampleMedia] { emptyUpdate with id := some 0 } 5 42 = .error e →
      ∃ s, e = .genericError s) :=
  C10_createOrUpdate_id_zero_creates [sampleMedia] { emptyUpdate with id := some 0 } 5 42 rfl
